import Mathlib

/-!
Shallow embedding of `src/app.py` (izamnr/Alt-Yapi-Sorgusu): an
address-based broadband-infrastructure query tool with a pluggable
provider architecture (MockProvider, WiradiusTTProvider, LinkOutProvider)
and an orchestration loop that aggregates each provider's results.

Modelling conventions:
* Python strings are Lean `String`s; Python `str.lower()` is modelled by
  `String.toLower` (ASCII lowercasing — adequate for the ASCII province
  allow-list the code compares against), and `str.strip()` by `pyStrip`
  (whitespace removal at both ends, computed structurally on the
  character list).
* Python `float` values are modelled as `Int`: every numeric constant in
  the program (1000, 100, 8) is integral and no float arithmetic occurs.
* JSON values returned by the upstream HTTP API are modelled by the
  inductive `Json`; JSON objects are association lists looked up by
  `Json.get` (Python `dict.get`, first binding wins).
* The single `requests.post` call is modelled by an explicit
  `HttpOutcome` value passed to the provider: a transport-level exception
  (connection error / timeout), or a response with a status code and a
  body that either parses to JSON or fails to parse.
* Python exceptions are modelled with `Except String`; the exact wording
  of exception messages carried through `str(e)` is abstracted (the code
  only stores them opaquely in `raw`).
* Turkish technology labels are kept verbatim from the source: `"Hata"`
  is the spec's `Error`, `"Yönlendirme"` is `Redirect`, `"Belirsiz"` is
  `Unknown`.
-/

/-- JSON values, as produced by `resp.json()`. Numbers are modelled as
integers (see header note on floats). -/
inductive Json where
  | null : Json
  | bool : Bool → Json
  | num : Int → Json
  | str : String → Json
  | arr : List Json → Json
  | obj : List (String × Json) → Json

/-- Python `dict.get(key)`: `some v` when the key is bound, `none` when absent
(Python `None`). -/
def Json.get (kvs : List (String × Json)) (key : String) : Option Json :=
  List.lookup key kvs

/-- Python truthiness of a JSON value (`None`, `False`, `0`, `""`, `[]`,
`{}` are falsy). -/
def Json.truthy : Json → Bool
  | .null => false
  | .bool b => b
  | .num n => n != 0
  | .str s => s != ""
  | .arr xs => !xs.isEmpty
  | .obj kvs => !kvs.isEmpty

/-- Python `x or y` where `x : Option Json` is a `dict.get` result
(`none` = Python `None`, falsy): keeps `x`'s value when truthy,
otherwise evaluates to `y`. -/
def pyOr (x : Option Json) (y : Option Json) : Option Json :=
  match x with
  | some j => if j.truthy then some j else y
  | none => y

/-- Python `x or y` whose right operand is a (truthy) literal, as in
`... or "Belirsiz"`: the result is always a value. -/
def pyOrD (x : Option Json) (y : Json) : Json :=
  match x with
  | some j => if j.truthy then j else y
  | none => y

/-- Python `str(tech)` on the JSON values of this program. The rendering
of compound values (`arr`, `obj`) abstracts Python's `repr`; the claims
only exercise the scalar cases. -/
def pyStr : Json → String
  | .null => "None"
  | .bool true => "True"
  | .bool false => "False"
  | .num n => toString n
  | .str s => s
  | .arr _ => "[...]"
  | .obj _ => "{...}"

/-- Pydantic coercion of a value into an `Optional[float]` field
(`max_down_mbps`, `max_up_mbps`): absent key or JSON null become `none`;
numbers pass through; booleans coerce to 0/1; numeric strings parse;
anything else raises a `ValidationError` (modelled as `Except.error`). -/
def pyFloatOpt : Option Json → Except String (Option Int)
  | none => .ok none
  | some .null => .ok none
  | some (.num n) => .ok (some n)
  | some (.bool b) => .ok (some (if b then 1 else 0))
  | some (.str s) =>
      match s.toInt? with
      | some n => .ok (some n)
      | none => .error "value is not a valid float"
  | some _ => .error "value is not a valid float"

/-- Pydantic coercion of a value into an `Optional[bool]` field
(`port_available`): absent key or JSON null become `none`; booleans pass
through; 0/1 and the usual boolean strings coerce; anything else raises a
`ValidationError` (modelled as `Except.error`). -/
def pyBoolOpt : Option Json → Except String (Option Bool)
  | none => .ok none
  | some .null => .ok none
  | some (.bool b) => .ok (some b)
  | some (.num 0) => .ok (some false)
  | some (.num 1) => .ok (some true)
  | some (.str "true") => .ok (some true)
  | some (.str "false") => .ok (some false)
  | some _ => .error "value could not be parsed to a boolean"

/-- Python `str.strip()`: drop whitespace characters from both ends of
the string. -/
def pyStrip (s : String) : String :=
  String.mk
    (((s.data.dropWhile Char.isWhitespace).reverse.dropWhile
      Char.isWhitespace).reverse)

/-- The `class Address(BaseModel)` data entity — the validated query key. The two
required fields `il` (province) and `ilce` (district) are stored trimmed;
the optional fields default to `""`. -/
structure Address where
  il : String
  ilce : String
  mahalle : String := ""
  cadde_sokak : String := ""
  bina_no : String := ""
  daire : String := ""
  tt_adres_kodu : String := ""

/-- The `@validator("il", "ilce") non_empty` body: strip, then reject the
empty string with `ValueError("Bu alan zorunludur")`. -/
def Address.non_empty (v : String) : Except String String :=
  let v := pyStrip v
  if v = "" then .error "Bu alan zorunludur" else .ok v

/-- Construction `Address(il=…, ilce=…, …)` — pydantic runs `non_empty`
on `il` and `ilce`, raising a `ValidationError` if either fails. -/
def Address.mk? (il ilce mahalle cadde_sokak bina_no daire tt_adres_kodu :
    String) : Except String Address := do
  let il ← Address.non_empty il
  let ilce ← Address.non_empty ilce
  pure { il := il, ilce := ilce, mahalle := mahalle,
         cadde_sokak := cadde_sokak, bina_no := bina_no, daire := daire,
         tt_adres_kodu := tt_adres_kodu }

/-- The `class InfraResult(BaseModel)` data entity — one provider's
normalized answer. -/
structure InfraResult where
  provider : String
  technology : String
  max_down_mbps : Option Int := none
  max_up_mbps : Option Int := none
  port_available : Option Bool := none
  raw : List (String × Json) := []

/-- The class attribute `MockProvider.name`. -/
def MockProvider.name : String := "Demo (Mock)"

/-- The fixed coastal allow-list `karadeniz` from `MockProvider.query`. -/
def MockProvider.karadeniz : List String :=
  ["rize", "artvin", "trabzon", "giresun", "ordu", "samsun", "bartin",
   "kastamonu", "sinop", "zonguldak"]

/-- Method `MockProvider.query`: classify by lowercased province membership in
the coastal set; the computed `key` is bound but never used, exactly as
in the source. -/
def MockProvider.query (address : Address) : List InfraResult :=
  let _key := address.il.toLower ++ "-" ++ address.ilce.toLower
  let tech := if MockProvider.karadeniz.contains address.il.toLower
              then "Fiber" else "VDSL"
  let down : Int := if tech = "Fiber" then 1000 else 100
  let up : Int := if tech = "Fiber" then 100 else 8
  [{ provider := MockProvider.name, technology := tech,
     max_down_mbps := some down, max_up_mbps := some up,
     port_available := some true, raw := [("rule", Json.str "demo")] }]

/-- Outcome of the single `requests.post(url, json=payload, timeout=20)`
call: a transport-level exception (connection failure or timeout), or a
response carrying a status code and a body that either parses as JSON or
raises on `resp.json()`. -/
inductive HttpOutcome where
  | transportError : String → HttpOutcome
  | response : Nat → Except String Json → HttpOutcome

/-- The class attribute `WiradiusTTProvider.name`. -/
def WiradiusTTProvider.name : String := "Wiradius – TT VAE (Opsiyonel)"

/-- The error-shaped result the `except` clause builds:
`InfraResult(provider=self.name, technology="Hata", raw={"error": str(e)})`. -/
def WiradiusTTProvider.errorResult (msg : String) : InfraResult :=
  { provider := WiradiusTTProvider.name, technology := "Hata",
    max_down_mbps := none, max_up_mbps := none, port_available := none,
    raw := [("error", Json.str msg)] }

/-- The field extraction and `InfraResult` construction on the success
path of `WiradiusTTProvider.query` (lines 93–97): Python `or` chains over
`data.get` results, then pydantic coercion into the optional fields; a
coercion failure raises inside the `try` block. -/
def WiradiusTTProvider.extract (data : List (String × Json)) :
    Except String InfraResult := do
  let tech := pyStr (pyOrD (pyOr (Json.get data "technology")
    (Json.get data "tech")) (Json.str "Belirsiz"))
  let max_down ← pyFloatOpt (pyOr (Json.get data "max_down")
    (Json.get data "download"))
  let max_up ← pyFloatOpt (pyOr (Json.get data "max_up")
    (Json.get data "upload"))
  let port_avail ← pyBoolOpt (Json.get data "port_available")
  pure { provider := WiradiusTTProvider.name, technology := tech,
         max_down_mbps := max_down, max_up_mbps := max_up,
         port_available := port_avail, raw := data }

/-- Method `WiradiusTTProvider.query`: empty list when any of the two credential
tokens or the address code is empty (Python falsiness of strings);
otherwise a single attempt whose failures — transport exception,
`raise_for_status` on a 4xx/5xx status, `resp.json()` parse failure, a
non-dict body (`data.get` raises), or a pydantic coercion failure — are
all caught and turned into a single error-shaped result. -/
def WiradiusTTProvider.query (api_code uniq_code : String)
    (address : Address) (outcome : HttpOutcome) : List InfraResult :=
  if api_code = "" ∨ uniq_code = "" ∨ address.tt_adres_kodu = "" then []
  else
    match outcome with
    | .transportError msg => [WiradiusTTProvider.errorResult msg]
    | .response status body =>
      if 400 ≤ status ∧ status < 600 then
        [WiradiusTTProvider.errorResult (toString status ++ " Error")]
      else
        match body with
        | .error msg => [WiradiusTTProvider.errorResult msg]
        | .ok (Json.obj data) =>
          match WiradiusTTProvider.extract data with
          | .ok r => [r]
          | .error msg => [WiradiusTTProvider.errorResult msg]
        | .ok _ =>
          [WiradiusTTProvider.errorResult "object has no attribute get"]

/-- The class attribute `LinkOutProvider.name`. -/
def LinkOutProvider.name : String := "Resmî Sayfalar – Yönlendirme"

/-- The class attribute `LinkOutProvider.LINKS` — the fixed label→URL table. -/
def LinkOutProvider.LINKS : List (String × Json) :=
  [("Türk Telekom Altyapı Sorgu",
      Json.str "https://www.turktelekom.com.tr/altyapi-sorgulama"),
   ("TT Kapsama Haritası",
      Json.str "https://kapsamaharitasi.turktelekom.com.tr/"),
   ("Turkcell Superonline",
      Json.str "https://www.superonline.net/altyapi-sorgulama"),
   ("Turkcell (Superbox/Altyapı)",
      Json.str "https://www.turkcell.com.tr/tr/altyapi-sorgulama"),
   ("Millenicom",
      Json.str "https://www.milleni.com.tr/internet-altyapi-sorgulama"),
   ("Netspeed",
      Json.str "https://www.netspeed.com.tr/altyapi-sorgula"),
   ("BTK – EHABS (e-Devlet)",
      Json.str "https://www.turkiye.gov.tr/btk-elektronik-haberlesme-altyapi-bilgi-sistemi-ehabs-hizmetleri-4302")]

/-- Method `LinkOutProvider.query`: one redirect result carrying the table. -/
def LinkOutProvider.query (_address : Address) : List InfraResult :=
  [{ provider := LinkOutProvider.name, technology := "Yönlendirme",
     max_down_mbps := none, max_up_mbps := none, port_available := none,
     raw := LinkOutProvider.LINKS }]

/-- A configured provider instance in the active provider list. The
`wiradius` constructor carries its credential fields and the outcome its
single upstream HTTP call would have. -/
inductive ProviderInst where
  | mock : ProviderInst
  | wiradius : String → String → HttpOutcome → ProviderInst
  | linkout : ProviderInst

/-- Polymorphic dispatch of `p.query(address)`. -/
def ProviderInst.query (p : ProviderInst) (address : Address) :
    List InfraResult :=
  match p with
  | .mock => MockProvider.query address
  | .wiradius api_code uniq_code outcome =>
      WiradiusTTProvider.query api_code uniq_code address outcome
  | .linkout => LinkOutProvider.query address

/-- The orchestration loop (lines 169–174): start from an empty `results`
list and `results.extend(p.query(address))` for each active provider in
order. -/
def runProviders (providers : List ProviderInst) (address : Address) :
    List InfraResult :=
  providers.foldl (fun results p => results ++ p.query address) []

/-- The active-provider list built by the `submitted` handler (lines
159–166): always Mock first; the Wiradius provider only when both
user-supplied override tokens are non-empty, or else when both
environment tokens are non-empty; always LinkOut last. -/
def activeProviders (wir_api_input wir_uniq_input wir_api_env
    wir_uniq_env : String) (outcome : HttpOutcome) : List ProviderInst :=
  ProviderInst.mock ::
    (if wir_api_input ≠ "" ∧ wir_uniq_input ≠ "" then
      [ProviderInst.wiradius wir_api_input wir_uniq_input outcome]
     else if wir_api_env ≠ "" ∧ wir_uniq_env ≠ "" then
      [ProviderInst.wiradius wir_api_env wir_uniq_env outcome]
     else []) ++ [ProviderInst.linkout]

/-- The `if submitted:` handler: construct the `Address` inside a `try`
block — a `ValidationError` aborts the query before any provider runs —
and otherwise run every active provider and aggregate the results. -/
def handleSubmit (il ilce mahalle cadde bina_no daire tt_kod
    wir_api_input wir_uniq_input wir_api_env wir_uniq_env : String)
    (outcome : HttpOutcome) : Except String (List InfraResult) := do
  let address ← Address.mk? il ilce mahalle cadde bina_no daire tt_kod
  pure (runProviders
    (activeProviders wir_api_input wir_uniq_input wir_api_env
      wir_uniq_env outcome) address)

/-- An HTTP failure outcome in the sense of the error-handling contract:
a transport-level exception (connection failure or timeout), a
non-success status (the 4xx/5xx range `raise_for_status` raises on), or
a body that fails to parse as JSON. -/
def WiradiusTTProvider.httpFailure : HttpOutcome → Bool
  | .transportError _ => true
  | .response status body =>
      (decide (400 ≤ status) && decide (status < 600)) ||
        (match body with | .error _ => true | .ok _ => false)

/-- Numeric fields of an `InfraResult`, when present, are non-negative
(the invariant claimed by the spec for all produced results). -/
def InfraResult.numsNonneg (r : InfraResult) : Prop :=
  (∀ n ∈ r.max_down_mbps, 0 ≤ n) ∧ (∀ n ∈ r.max_up_mbps, 0 ≤ n)

/-- Modelled from the spec (for comparison with the code, which uses
Python `or`): extraction of a field value from "the first non-null of
two candidate field names" — the first candidate wins whenever it is
present and not JSON null, regardless of truthiness. -/
def specFirstNonNull (data : List (String × Json)) (k1 k2 : String) :
    Option Json :=
  match Json.get data k1 with
  | some Json.null => Json.get data k2
  | some v => some v
  | none => Json.get data k2

/-- A concrete validated address used to instantiate theorems with
hypotheses on small inputs. -/
def addrK1 : Address :=
  { il := "Rize", ilce := "Merkez", tt_adres_kodu := "K1" }

/-- The concrete upstream JSON object witnessing that numeric fields are
copied from upstream without a sign check. -/
def negBody : List (String × Json) := [("max_down", Json.num (-5))]

/-- The concrete upstream JSON object on which Python `or` (first
truthy) and the spec's first-non-null extraction disagree: `max_down`
is present and non-null but equal to 0, hence falsy. -/
def zeroDownBody : List (String × Json) :=
  [("max_down", Json.num 0), ("download", Json.num 50)]

/-- Auxiliary: unrolling the orchestration `foldl` from an arbitrary
accumulator. -/
theorem runProviders_foldl_eq (address : Address) :
    ∀ (ps : List ProviderInst) (acc : List InfraResult),
      ps.foldl (fun results p => results ++ p.query address) acc =
        acc ++ (ps.map (fun p => p.query address)).flatten := by
  intro ps
  induction ps with
  | nil => intro acc; simp
  | cons p rest ih =>
      intro acc
      simp only [List.foldl, List.map, List.flatten, ih]
      simp [List.append_assoc]

/-- C1: for every valid `Address`, `MockProvider.query` returns exactly
one `InfraResult`: `Fiber` with 1000/100 Mbps when the lowercased
province is in the fixed coastal set, otherwise `VDSL` with 100/8 Mbps;
`port_available` is always true. Quantifying over all `il` strings and
classifying by `toLower` makes the property hold for every casing of the
province. -/
theorem mockProvider_classification (a : Address) :
    MockProvider.query a =
      if a.il.toLower ∈ MockProvider.karadeniz then
        [{ provider := MockProvider.name, technology := "Fiber",
           max_down_mbps := some 1000, max_up_mbps := some 100,
           port_available := some true,
           raw := [("rule", Json.str "demo")] }]
      else
        [{ provider := MockProvider.name, technology := "VDSL",
           max_down_mbps := some 100, max_up_mbps := some 8,
           port_available := some true,
           raw := [("rule", Json.str "demo")] }] := by
  by_cases h : a.il.toLower ∈ MockProvider.karadeniz
  · simp [MockProvider.query, h]
  · simp [MockProvider.query, h]

/-- C8: for every `Address`, `LinkOutProvider.query` returns exactly one
result with technology `Yönlendirme` (the spec's `Redirect`) and `raw`
equal to the full fixed label→URL table, independently of the input
address (second conjunct), never failing and performing no I/O (it is a
total pure function). -/
theorem linkOutProvider_fixed_result (a : Address) :
    LinkOutProvider.query a =
      [{ provider := LinkOutProvider.name, technology := "Yönlendirme",
         max_down_mbps := none, max_up_mbps := none,
         port_available := none, raw := LinkOutProvider.LINKS }] ∧
    ∀ b : Address, LinkOutProvider.query a = LinkOutProvider.query b := by
  exact ⟨rfl, fun _ => rfl⟩

/-- C9: `MockProvider.query` and `LinkOutProvider.query` are pure and
idempotent — running either provider twice through the orchestration
loop on the same `Address` aggregates two identical copies of one and
the same result list. -/
theorem providers_pure_idempotent (a : Address) :
    (runProviders [ProviderInst.mock, ProviderInst.mock] a =
      MockProvider.query a ++ MockProvider.query a) ∧
    (runProviders [ProviderInst.linkout, ProviderInst.linkout] a =
      LinkOutProvider.query a ++ LinkOutProvider.query a) := by
  constructor <;> simp [runProviders, ProviderInst.query]

/-- C10: the result of `MockProvider.query` depends only on the `il`
(province) field — any two addresses sharing a province produce
identical results, whatever their other fields; the district-bearing
`key` computed inside the method is never used. -/
theorem mockProvider_depends_only_on_il (a b : Address)
    (h : a.il = b.il) : MockProvider.query a = MockProvider.query b := by
  simp [MockProvider.query, h]

/-- Witness for C10 at concrete inputs differing in every field but the
province. -/
theorem mockProvider_depends_only_on_il_witness :
    MockProvider.query { il := "Rize", ilce := "Merkez" } =
      MockProvider.query
        { il := "Rize", ilce := "Çayeli", mahalle := "Sahil",
          cadde_sokak := "C1", bina_no := "7", daire := "2",
          tt_adres_kodu := "K9" } :=
  mockProvider_depends_only_on_il
    { il := "Rize", ilce := "Merkez" }
    { il := "Rize", ilce := "Çayeli", mahalle := "Sahil",
      cadde_sokak := "C1", bina_no := "7", daire := "2",
      tt_adres_kodu := "K9" } rfl

/-- C3: whenever the first credential token, the second credential token
or the address's carrier code is empty, `WiradiusTTProvider.query`
returns the empty list, for every HTTP outcome — in particular the
result does not depend on any network interaction. -/
theorem wiradiusTT_inapplicable_empty (api_code uniq_code : String)
    (a : Address) (outcome : HttpOutcome)
    (h : api_code = "" ∨ uniq_code = "" ∨ a.tt_adres_kodu = "") :
    WiradiusTTProvider.query api_code uniq_code a outcome = [] := by
  unfold WiradiusTTProvider.query
  exact if_pos h

/-- Witness for C3: empty second token, concrete address and outcome. -/
theorem wiradiusTT_inapplicable_empty_witness :
    WiradiusTTProvider.query "k" "" addrK1
      (HttpOutcome.response 200 (Except.ok (Json.obj []))) = [] :=
  wiradiusTT_inapplicable_empty "k" "" addrK1
    (HttpOutcome.response 200 (Except.ok (Json.obj [])))
    (Or.inr (Or.inl rfl))

/-- C4: the orchestration loop concatenates the providers' result lists
in provider order: the aggregate equals the flattened per-provider
results, its length is the sum of the individual result counts, and the
head provider's results are a prefix followed by the aggregate of the
remaining providers — so an empty or error-shaped result from one
provider never prevents later providers from contributing. -/
theorem orchestrator_concat_order (ps : List ProviderInst)
    (a : Address) :
    runProviders ps a = (ps.map (fun p => p.query a)).flatten ∧
    (runProviders ps a).length =
      (ps.map (fun p => (p.query a).length)).sum ∧
    ∀ (p : ProviderInst) (rest : List ProviderInst),
      runProviders (p :: rest) a = p.query a ++ runProviders rest a := by
  refine ⟨?_, ?_, ?_⟩
  · simpa using runProviders_foldl_eq a ps []
  · have h := runProviders_foldl_eq a ps []
    simp only [runProviders] at h ⊢
    rw [h]
    simp only [List.nil_append, List.length_flatten, List.map_map]
    rfl
  · intro p rest
    have h1 := runProviders_foldl_eq a (p :: rest) []
    have h2 := runProviders_foldl_eq a rest []
    simp only [runProviders] at h1 h2 ⊢
    rw [h1, h2]
    simp

/-- C6: `Address` construction succeeds for every input whose province
and district are non-empty after stripping, storing them stripped; when
either is blank or whitespace-only it fails with the validation error,
and the `submitted` handler then returns that error without running any
provider, so no partial results are produced. -/
theorem address_validation_spec (il ilce mahalle cadde bina_no daire
    tt_kod : String) :
    (pyStrip il ≠ "" → pyStrip ilce ≠ "" →
      Address.mk? il ilce mahalle cadde bina_no daire tt_kod =
        .ok { il := pyStrip il, ilce := pyStrip ilce,
              mahalle := mahalle, cadde_sokak := cadde,
              bina_no := bina_no, daire := daire,
              tt_adres_kodu := tt_kod }) ∧
    ((pyStrip il = "" ∨ pyStrip ilce = "") →
      Address.mk? il ilce mahalle cadde bina_no daire tt_kod =
        .error "Bu alan zorunludur" ∧
      ∀ wa wu ea eu outcome,
        handleSubmit il ilce mahalle cadde bina_no daire tt_kod
          wa wu ea eu outcome = .error "Bu alan zorunludur") := by
  constructor
  · intro h1 h2
    simp [Address.mk?, Address.non_empty, h1, h2]
    rfl
  · intro h
    have key : Address.mk? il ilce mahalle cadde bina_no daire tt_kod =
        .error "Bu alan zorunludur" := by
      rcases h with h | h
      · simp [Address.mk?, Address.non_empty, h]
        rfl
      · by_cases h1 : pyStrip il = ""
        · simp [Address.mk?, Address.non_empty, h1]
          rfl
        · simp [Address.mk?, Address.non_empty, h1, h]
          rfl
    refine ⟨key, ?_⟩
    intro wa wu ea eu outcome
    simp [handleSubmit, key]

/-- Witness for C6: a padded valid input constructs the stripped
address; a whitespace-only province is rejected. -/
theorem address_validation_spec_witness :
    (Address.mk? " Rize " " Merkez" "" "" "" "" "K1" =
      .ok { il := pyStrip " Rize ", ilce := pyStrip " Merkez",
            mahalle := "", cadde_sokak := "", bina_no := "", daire := "",
            tt_adres_kodu := "K1" }) ∧
    (Address.mk? "   " "Merkez" "" "" "" "" "" =
      .error "Bu alan zorunludur") :=
  ⟨(address_validation_spec " Rize " " Merkez" "" "" "" "" "K1").1
      (by decide) (by decide),
   ((address_validation_spec "   " "Merkez" "" "" "" "" "").2
      (Or.inl (by decide))).1⟩

/-- C2: with non-empty credentials and carrier address code, every HTTP
failure outcome — transport error or timeout, a 4xx/5xx status, or an
unparsable JSON body — makes `WiradiusTTProvider.query` return exactly
one result of technology `Hata` (the spec's `Error`) whose `raw` is the
singleton error mapping, all other optional fields unset; no exception
escapes (the function is total). -/
theorem wiradiusTT_failure_error_result (api_code uniq_code : String)
    (a : Address) (outcome : HttpOutcome)
    (h1 : api_code ≠ "") (h2 : uniq_code ≠ "")
    (h3 : a.tt_adres_kodu ≠ "")
    (hf : WiradiusTTProvider.httpFailure outcome = true) :
    ∃ msg, WiradiusTTProvider.query api_code uniq_code a outcome =
      [WiradiusTTProvider.errorResult msg] := by
  have hc : ¬(api_code = "" ∨ uniq_code = "" ∨ a.tt_adres_kodu = "") := by
    push_neg
    exact ⟨h1, h2, h3⟩
  cases outcome with
  | transportError msg =>
      refine ⟨msg, ?_⟩
      simp only [WiradiusTTProvider.query]
      rw [if_neg hc]
  | response status body =>
      by_cases hs : 400 ≤ status ∧ status < 600
      · refine ⟨toString status ++ " Error", ?_⟩
        simp only [WiradiusTTProvider.query]
        rw [if_neg hc, if_pos hs]
      · cases body with
        | error msg =>
            refine ⟨msg, ?_⟩
            simp only [WiradiusTTProvider.query]
            rw [if_neg hc, if_neg hs]
        | ok j =>
            exfalso
            simp [WiradiusTTProvider.httpFailure] at hf
            exact hs hf

/-- Witness for C2 at a concrete transport failure. -/
theorem wiradiusTT_failure_error_result_witness :
    ∃ msg, WiradiusTTProvider.query "k" "u" addrK1
      (HttpOutcome.transportError "timed out") =
        [WiradiusTTProvider.errorResult msg] :=
  wiradiusTT_failure_error_result "k" "u" addrK1
    (HttpOutcome.transportError "timed out")
    (by decide) (by decide) (by decide) rfl

/-- Counterexample to C5 as stated: `WiradiusTTProvider` copies upstream
numeric values into `InfraResult` without any sign check, so the body
`{"max_down": -5}` yields a produced result whose `max_down_mbps` is the
negative value −5, refuting the claimed non-negativity invariant. -/
theorem infraResult_nonneg_counterexample :
    WiradiusTTProvider.query "k" "u" addrK1
      (HttpOutcome.response 200 (Except.ok (Json.obj negBody))) =
      [{ provider := WiradiusTTProvider.name, technology := "Belirsiz",
         max_down_mbps := some (-5), max_up_mbps := none,
         port_available := none, raw := negBody }] ∧
    ¬ (0 : Int) ≤ -5 := by
  exact ⟨rfl, by decide⟩

/-- C5 (amended): every result of `MockProvider` and `LinkOutProvider`,
and every result `WiradiusTTProvider` produces on an HTTP failure, has
its numeric fields non-negative whenever present (`technology` is a
mandatory field of `InfraResult`, hence always set); the remote
provider's success-path results carry upstream values unvalidated. -/
theorem infraResult_nonneg_amended (a : Address)
    (api_code uniq_code : String) (outcome : HttpOutcome)
    (hf : WiradiusTTProvider.httpFailure outcome = true) :
    (∀ r ∈ MockProvider.query a, r.numsNonneg) ∧
    (∀ r ∈ LinkOutProvider.query a, r.numsNonneg) ∧
    (∀ r ∈ WiradiusTTProvider.query api_code uniq_code a outcome,
      r.numsNonneg) := by
  have herr : ∀ msg, (WiradiusTTProvider.errorResult msg).numsNonneg := by
    intro msg
    constructor <;> intro n hn <;>
      simp [WiradiusTTProvider.errorResult] at hn
  refine ⟨?_, ?_, ?_⟩
  · intro r hr
    by_cases hc : MockProvider.karadeniz.contains a.il.toLower = true
    · simp [MockProvider.query, hc] at hr
      subst hr
      constructor <;> intro n hn <;> simp at hn <;> omega
    · simp [MockProvider.query, hc] at hr
      subst hr
      constructor <;> intro n hn <;> simp at hn <;> omega
  · intro r hr
    simp [LinkOutProvider.query] at hr
    subst hr
    constructor <;> intro n hn <;> simp at hn
  · intro r hr
    by_cases hcred : (api_code = "" ∨ uniq_code = "" ∨
        a.tt_adres_kodu = "")
    · simp only [WiradiusTTProvider.query, if_pos hcred] at hr
      simp at hr
    · cases outcome with
      | transportError msg =>
          simp only [WiradiusTTProvider.query, if_neg hcred] at hr
          simp at hr
          subst hr
          exact herr msg
      | response status body =>
          by_cases hs : 400 ≤ status ∧ status < 600
          · simp only [WiradiusTTProvider.query, if_neg hcred,
              if_pos hs] at hr
            simp at hr
            subst hr
            exact herr _
          · cases body with
            | error msg =>
                simp only [WiradiusTTProvider.query, if_neg hcred,
                  if_neg hs] at hr
                simp at hr
                subst hr
                exact herr msg
            | ok j =>
                exfalso
                simp [WiradiusTTProvider.httpFailure] at hf
                exact hs hf

/-- Witness for C5 (amended) on a concrete address and a concrete
transport failure. -/
theorem infraResult_nonneg_amended_witness :
    (∀ r ∈ MockProvider.query addrK1, r.numsNonneg) ∧
    (∀ r ∈ LinkOutProvider.query addrK1, r.numsNonneg) ∧
    (∀ r ∈ WiradiusTTProvider.query "k" "u" addrK1
      (HttpOutcome.transportError "boom"), r.numsNonneg) :=
  infraResult_nonneg_amended addrK1 "k" "u"
    (HttpOutcome.transportError "boom") rfl

/-- Counterexample to C7 as stated: the extraction uses Python `or`,
which takes the first *truthy* candidate, not the first non-null one.
On the body `{"max_down": 0, "download": 50}` the first candidate is
present and non-null (the number 0), yet the code extracts 50 from the
second candidate because 0 is falsy. -/
theorem wiradiusTT_extraction_counterexample :
    WiradiusTTProvider.query "k" "u" addrK1
      (HttpOutcome.response 200 (Except.ok (Json.obj zeroDownBody))) =
      [{ provider := WiradiusTTProvider.name, technology := "Belirsiz",
         max_down_mbps := some 50, max_up_mbps := none,
         port_available := none, raw := zeroDownBody }] ∧
    specFirstNonNull zeroDownBody "max_down" "download" =
      some (Json.num 0) ∧
    (50 : Int) ≠ 0 := by
  exact ⟨rfl, rfl, by decide⟩

/-- C7 (amended): on a successful upstream response with a parsed JSON
object body, the provider extracts technology as the first truthy of the
two candidate names (stringified, defaulting to `Belirsiz` — the spec's
`Unknown` — when both are missing or falsy), download and upload speed
each as the first truthy of two candidate names, and port availability
from its dedicated field; the returned result's `raw` equals the full
parsed body regardless of which fields were extracted. -/
theorem wiradiusTT_extraction_amended (api_code uniq_code : String)
    (a : Address) (status : Nat) (data : List (String × Json))
    (dn up : Option Int) (pa : Option Bool)
    (h1 : api_code ≠ "") (h2 : uniq_code ≠ "")
    (h3 : a.tt_adres_kodu ≠ "") (hs : status < 400)
    (hdn : pyFloatOpt (pyOr (Json.get data "max_down")
      (Json.get data "download")) = .ok dn)
    (hup : pyFloatOpt (pyOr (Json.get data "max_up")
      (Json.get data "upload")) = .ok up)
    (hpa : pyBoolOpt (Json.get data "port_available") = .ok pa) :
    WiradiusTTProvider.query api_code uniq_code a
      (HttpOutcome.response status (Except.ok (Json.obj data))) =
      [{ provider := WiradiusTTProvider.name,
         technology := pyStr (pyOrD (pyOr (Json.get data "technology")
           (Json.get data "tech")) (Json.str "Belirsiz")),
         max_down_mbps := dn, max_up_mbps := up, port_available := pa,
         raw := data }] := by
  have hc : ¬(api_code = "" ∨ uniq_code = "" ∨ a.tt_adres_kodu = "") := by
    push_neg
    exact ⟨h1, h2, h3⟩
  have hns : ¬(400 ≤ status ∧ status < 600) := by omega
  simp only [WiradiusTTProvider.query, if_neg hc, if_neg hns]
  simp [WiradiusTTProvider.extract, hdn, hup, hpa]
  rfl

/-- Witness for C7 (amended) on a concrete body exercising the
technology, download and port fields. -/
theorem wiradiusTT_extraction_amended_witness :
    WiradiusTTProvider.query "k" "u" addrK1
      (HttpOutcome.response 200 (Except.ok (Json.obj
        [("technology", Json.str "Fiber"), ("max_down", Json.num 100),
         ("port_available", Json.bool true)]))) =
      [{ provider := WiradiusTTProvider.name,
         technology := pyStr (pyOrD (pyOr
           (Json.get [("technology", Json.str "Fiber"),
             ("max_down", Json.num 100),
             ("port_available", Json.bool true)] "technology")
           (Json.get [("technology", Json.str "Fiber"),
             ("max_down", Json.num 100),
             ("port_available", Json.bool true)] "tech"))
           (Json.str "Belirsiz")),
         max_down_mbps := some 100, max_up_mbps := none,
         port_available := some true,
         raw := [("technology", Json.str "Fiber"),
           ("max_down", Json.num 100),
           ("port_available", Json.bool true)] }] :=
  wiradiusTT_extraction_amended "k" "u" addrK1 200
    [("technology", Json.str "Fiber"), ("max_down", Json.num 100),
     ("port_available", Json.bool true)]
    (some 100) none (some true)
    (by decide) (by decide) (by decide) (by decide) rfl rfl rfl
